import Mathlib

/-!
Verification of the ONSLIVE space-weather update pipeline.

This file shallowly embeds the ingestion-normalization-classification
pipeline of `src/scripts/update-data.js` (together with the script
variants `src/unnamed/part_001`, which adds the meteor-calendar
assembler, and `src/unnamed/part_002`) and proves the windowing,
classification, degradation and run-status properties stated about it.
Finite JavaScript doubles are modelled by rationals; fallible fetches
are modelled by `Except`; the per-run wall clock is an explicit
parameter.
-/

namespace Onslive

/-- Model of a JavaScript value as it flows through the update script:
a finite JSON number, a string, the `undefined` value (used for missing
object fields and out-of-range array reads), or the `NaN` produced by a
failed `parseFloat`.  Rationals stand in for the finite doubles the
script manipulates. -/
inductive JsVal where
  | num (q : ℚ)
  | str (s : String)
  | undef
  | nan
deriving DecidableEq, Repr

/-- JavaScript truthiness of a `JsVal`: `0`, the empty string,
`undefined` and `NaN` are falsy. -/
def jsTruthy : JsVal → Bool
  | .num q => q != 0
  | .str s => s != ""
  | .undef => false
  | .nan => false

/-- The JavaScript `a || b` operator on `JsVal`. -/
def jsOr (a b : JsVal) : JsVal := if jsTruthy a then a else b

/-- Accumulated value of a list of decimal digit characters. -/
def digitsVal (cs : List Char) : ℕ :=
  cs.foldl (fun a c2 => a * 10 + (c2.toNat - 48)) 0

/-- Models JavaScript `parseFloat` restricted to plain decimal literals
(optional sign, integer digits, optional fractional digits): any other
string yields `none`, standing for `NaN`.  The script only feeds
decimal strings (or garbage) to `parseFloat`, so exponent notation and
prefix parsing are not needed by any claim and are not modelled. -/
def parseDec (s : String) : Option ℚ :=
  let cs := s.toList
  let neg : Bool := match cs with | '-' :: _ => true | _ => false
  let body := match cs with | '-' :: t => t | '+' :: t => t | t => t
  let ip := body.takeWhile Char.isDigit
  let rest := body.drop ip.length
  let fp? : Option (List Char) :=
    match rest with
    | [] => some []
    | '.' :: t => if t.all Char.isDigit then some t else none
    | _ => none
  match fp? with
  | none => none
  | some f =>
    if ip.length = 0 && f.length = 0 then none
    else
      let mag : ℚ := (digitsVal ip : ℚ) + (digitsVal f : ℚ) / (10 : ℚ) ^ f.length
      some (if neg then -mag else mag)

/-- JavaScript `parseFloat` on a `JsVal`: numbers parse to themselves,
strings go through `parseDec`, and `undefined` or `NaN` give `NaN`. -/
def jsParseFloat : JsVal → JsVal
  | .num q => .num q
  | .str s => match parseDec s with | some q => .num q | none => .nan
  | .undef => .nan
  | .nan => .nan

/-- The idiom `parseFloat(x) || 0` used throughout the script: an
unparsable or missing input is coerced to the default `0`. -/
def parseFloatOr0 (v : JsVal) : ℚ :=
  match jsParseFloat v with
  | .num q => q
  | _ => 0

/-- Whether a `JsVal` is an actual finite number. -/
def isNumericJs : JsVal → Bool
  | .num _ => true
  | _ => false

/-- A JavaScript `x >= c` comparison where `x` is a number-or-NaN
value: every comparison with `NaN` is false. -/
def jsGe (v : JsVal) (c : ℚ) : Bool :=
  match v with
  | .num q => decide (c ≤ q)
  | _ => false

/-- Rounding of `q` to one decimal place, the numeric effect of
JavaScript `toFixed(1)` (and of `parseFloat(x.toFixed(1))`); exact
half-way cases round up, a tie-break no claim depends on. -/
def round1 (q : ℚ) : ℚ := (round (q * 10) : ℤ) / 10

/-- Decimal rendering of `q` to one decimal place, modelling
`Number.prototype.toFixed(1)`. -/
def toFixed1Str (q : ℚ) : String :=
  let n : ℤ := round (q * 10)
  (if n < 0 then "-" else "") ++ toString (n.natAbs / 10) ++ "." ++ toString (n.natAbs % 10)

/-- `toFixed(1)` lifted to number-or-NaN values. -/
def jsToFixed1 : JsVal → String
  | .num q => toFixed1Str q
  | _ => "NaN"

/-- Adding a numeric constant to a number-or-NaN value (`kp + 0.5`). -/
def jsAdd (v : JsVal) (c : ℚ) : JsVal :=
  match v with
  | .num q => .num (q + c)
  | _ => .nan

/-- JavaScript `arr.slice(-n)` for positive `n`: the last `n` entries,
or the whole array when it is shorter. -/
def lastN (n : ℕ) (l : List α) : List α := l.drop (l.length - n)

/-- An upstream Kp-index item as the script distinguishes it: either an
already-positional array row, or an object row with the fields the
script reads (`time_tag`, `timestamp`, `kp`, `estimated_kp`). -/
inductive KpRaw where
  | arr (xs : List JsVal)
  | obj (time_tag timestamp kp estimated_kp : JsVal)
deriving DecidableEq, Repr

/-- The map callback of update-data.js lines 21-33: array items pass
through unchanged, object items are converted to the positional form
`[time, kp, estimated_kp, placeholder]` with numeric coercion. -/
def normalizeKpItem : KpRaw → List JsVal
  | .arr xs => xs
  | .obj t ts kp est =>
      [jsOr t ts, .num (parseFloatOr0 kp), .num (parseFloatOr0 est), .str "0"]

/-- The Kp-index adapter (update-data.js lines 17-37): on a fetch error
the list stays empty; on success items are normalized and the last 24
are kept. -/
def kpAdapter : Except Unit (List KpRaw) → List (List JsVal)
  | .error _ => []
  | .ok data => lastN 24 (data.map normalizeKpItem)

/-- One upstream solar-wind row, with the fields the script reads. -/
structure WindRaw where
  time_tag : JsVal
  density : JsVal
  speed : JsVal
  temperature : JsVal
deriving DecidableEq, Repr

/-- The solar-wind adapter (lines 41-58): keeps only the most recent
entry, formatted as `[time, density, speed, temperature]` with numeric
coercion; a fetch error or an empty feed leaves the empty array. -/
def windAdapter (r : Except Unit (List WindRaw)) (iso : String) : List JsVal :=
  match r with
  | .error _ => []
  | .ok data =>
    match data.getLast? with
    | none => []
    | some latest =>
        [jsOr latest.time_tag (.str iso), .num (parseFloatOr0 latest.density),
         .num (parseFloatOr0 latest.speed), .num (parseFloatOr0 latest.temperature)]

/-- The solar-flare adapter (lines 62-75): the last 10 entries of the
primary feed; the backup endpoint is consulted only when the primary
fetch succeeded with an empty windowed result; a throw of either fetch
is caught, leaving whatever was assigned so far. -/
def flareAdapter (primary backup : Except Unit (List JsVal)) : List JsVal :=
  match primary with
  | .error _ => []
  | .ok xs =>
    let s := lastN 10 xs
    if s.length = 0 then
      match backup with
      | .error _ => s
      | .ok ys => lastN 10 ys
    else s

/-- Whether the run issues a request to the backup flare endpoint
(line 68: only when the primary result, after windowing, is empty). -/
def flareBackupTried (primary : Except Unit (List JsVal)) : Bool :=
  match primary with
  | .error _ => false
  | .ok xs => (lastN 10 xs).length == 0

/-- The solar-flare adapter of the simplified variant script
(src/unnamed/part_002 lines 21-23): it keeps `slice(0, 10)`, the first
ten entries of the feed, and has no backup endpoint. -/
def part002FlareAdapter (r : Except Unit (List JsVal)) : List JsVal :=
  match r with
  | .error _ => []
  | .ok xs => xs.take 10

/-- Line 91: the current Kp is `parseFloat` of the second slot of the
last kept entry, or the default `0` when the adapter produced no
entries.  The code applies no `|| 0` here, so an unparsable slot
yields `NaN`. -/
def currentKpJs (kpIndex : List (List JsVal)) : JsVal :=
  match kpIndex.getLast? with
  | none => .num 0
  | some entry => jsParseFloat (entry.getD 1 .undef)

/-- Line 92: the aurora activity level derived from Kp. -/
def auroraLevelOf (kp : JsVal) : String :=
  if jsGe kp 6 then "HIGH" else if jsGe kp 4 then "MODERATE" else "LOW"

/-- Line 93: the visibility sentence derived from Kp. -/
def auroraVisibility (kp : JsVal) : String :=
  if jsGe kp 5 then "Aurora may be visible at mid-latitudes tonight."
  else "Aurora activity is quiet."

/-- The aurora snapshot document (fields of lines 95-102). -/
structure AuroraDoc where
  forecast : String
  kpIndex : JsVal
  updated : String
  source : String
  probability : String
  bestViewing : String
deriving DecidableEq, Repr

/-- The aurora document of lines 95-102, built unconditionally from the
current Kp value and the clock. -/
def buildAurora (kp : JsVal) (iso : String) : AuroraDoc where
  forecast :=
    "Current Kp index is " ++ jsToFixed1 kp ++ " (" ++ auroraLevelOf kp ++ "). "
      ++ auroraVisibility kp ++ " The auroral oval is "
      ++ (if jsGe kp 4 then "expanded" else "near normal")
      ++ " size. Next 3 hours forecast: Kp " ++ jsToFixed1 (jsAdd kp (1/2)) ++ "."
  kpIndex := kp
  updated := iso
  source := "NOAA Aurora Forecast"
  probability := if jsGe kp 5 then "High" else "Low"
  bestViewing := if jsGe kp 4 then "Late evening to early morning" else "Not favorable"

/-- The X-ray classification of lines 118-128: the flux string is the
class letter of the largest met threshold, concatenated with the flux
divided by that threshold to one decimal place (the final `A` branch
divides by 1e-10). -/
def xrayFluxString (flux : ℚ) : String :=
  if 1/1000000 ≤ flux then "X" ++ toFixed1Str (flux / (1/1000000))
  else if 1/10000000 ≤ flux then "M" ++ toFixed1Str (flux / (1/10000000))
  else if 1/100000000 ≤ flux then "C" ++ toFixed1Str (flux / (1/100000000))
  else if 1/1000000000 ≤ flux then "B" ++ toFixed1Str (flux / (1/1000000000))
  else "A" ++ toFixed1Str (flux / (1/10000000000))

/-- One upstream X-ray row: the script reads only `flux`, a JSON number
that may be missing (`latestXray.flux || 0`). -/
structure XrayRaw where
  flux : Option ℚ
deriving DecidableEq, Repr

/-- The X-ray step of lines 111-133: the default reading is `"A0.0"`;
on success the most recent entry's flux, defaulted to `0` when
missing, is classified. -/
def xrayStep (r : Except Unit (List XrayRaw)) : String :=
  match r with
  | .error _ => "A0.0"
  | .ok data =>
    match data.getLast? with
    | none => "A0.0"
    | some latest => xrayFluxString (latest.flux.getD 0)

/-- The Dst step of lines 137-148: default `0`, else `parseFloat` of
the second slot of the most recent `[time, dst]` row, `|| 0`. -/
def dstStep (r : Except Unit (List (List JsVal))) : ℚ :=
  match r with
  | .error _ => 0
  | .ok data =>
    match data.getLast? with
    | none => 0
    | some row => parseFloatOr0 (row.getD 1 .undef)

/-- Lines 296-302 of update-data.js. -/
def getDstStormLevel (dst : ℚ) : String :=
  if dst ≤ -100 then "Severe"
  else if dst ≤ -50 then "Strong"
  else if dst ≤ -30 then "Moderate"
  else if dst ≤ -20 then "Minor"
  else "Quiet"

/-- Lines 304-310 of update-data.js. -/
def getDstDescription (dst : ℚ) : String :=
  if dst ≤ -100 then "Severe geomagnetic storm in progress"
  else if dst ≤ -50 then "Strong geomagnetic storm ongoing"
  else if dst ≤ -30 then "Moderate geomagnetic disturbance"
  else if dst ≤ -20 then "Minor geomagnetic activity"
  else "Geomagnetic conditions quiet"

/-- The per-level description map asserted by the spec: one fixed
description string per storm level. -/
def dstLevelDescription (lvl : String) : String :=
  if lvl = "Severe" then "Severe geomagnetic storm in progress"
  else if lvl = "Strong" then "Strong geomagnetic storm ongoing"
  else if lvl = "Moderate" then "Moderate geomagnetic disturbance"
  else if lvl = "Minor" then "Minor geomagnetic activity"
  else "Geomagnetic conditions quiet"

/-- Lines 276-294: description from the class string.  The code applies
plain `parseFloat` to the magnitude part; for strings this script
builds that part always parses, and an unparsable part would compare
`NaN >= 10` as false exactly as the `0` default does here. -/
def getXrayDescription (fluxClass : String) : String :=
  let letter := fluxClass.take 1
  let value := parseFloatOr0 (.str (fluxClass.drop 1))
  if letter = "X" then
    if 10 ≤ value then "Extreme solar flare activity" else "Major solar flare activity"
  else if letter = "M" then "Moderate solar flare activity"
  else if letter = "C" then "Minor solar flare activity"
  else if letter = "B" then "Very low solar activity"
  else if letter = "A" then "Background solar activity"
  else "Normal solar activity"

/-- The xray-data snapshot document of lines 225-234 (the source field
`class` is rendered here as `classLetter`). -/
structure XrayDoc where
  current : String
  numeric : ℚ
  classLetter : String
  updated : String
  description : String
deriving DecidableEq, Repr

/-- Builder of the xray-data document (lines 225-234). -/
def buildXrayDoc (s : String) (iso : String) : XrayDoc where
  current := s
  numeric := parseFloatOr0 (.str (s.drop 1))
  classLetter := s.take 1
  updated := iso
  description := getXrayDescription s

/-- One news item as pushed at lines 167-173 and 182-188. -/
structure NewsItem where
  title : String
  link : String
  source : String
  date : String
  summary : String
deriving DecidableEq, Repr

/-- The placeholder item of lines 182-188. -/
def placeholderNews (iso : String) : NewsItem where
  title := "Space Weather Dashboard Live"
  link := "https://github.com/NAGOHUSA/ONSLIVE"
  source := "Dashboard"
  date := iso
  summary := "Your enhanced space weather dashboard is now operational with real-time data feeds."

/-- The news step of lines 152-194.  The RSS fetch and regex parse of
lines 154-178 are abstracted as an `Except` carrying the items that
were successfully fetched, matched and accepted (feed parsing is an
external capability in the spec); a fetch failure contributes no
items.  If no item was collected, the fixed placeholder is pushed. -/
def newsStep (r : Except Unit (List NewsItem)) (iso : String) : List NewsItem :=
  let items := match r with | .error _ => [] | .ok l => l
  if items.length = 0 then [placeholderNews iso] else items

/-- The metrics block of the success status document (lines 208-214). -/
structure Metrics where
  kpIndex : JsVal
  xrayFlux : String
  dstIndex : ℚ
  solarWindSpeed : JsVal
  flareCount : ℕ
deriving DecidableEq, Repr

/-- The update-status snapshot document; the error variant of lines
259-264 carries no data sources and no metrics. -/
structure StatusDoc where
  lastUpdate : String
  status : String
  message : String
  timestamp : ℤ
  dataSources : Option (List String)
  metrics : Option Metrics
deriving DecidableEq, Repr

/-- Both faces of the wall clock the script reads
(`new Date().toISOString()` and `Date.now()`), fixed for one run. -/
structure Clock where
  iso : String
  ms : ℤ
deriving DecidableEq, Repr

/-- The success status document of lines 197-215. -/
def successStatus (c : Clock) (curKp : JsVal) (xrayFlux : String) (dstIndex : ℚ)
    (solarWind : List JsVal) (flareCount : ℕ) : StatusDoc where
  lastUpdate := c.iso
  status := "success"
  message := "All space weather data updated successfully"
  timestamp := c.ms
  dataSources := some ["NOAA Space Weather Prediction Center", "NASA GOES Satellite Data",
    "Real-time Aurora Forecast", "Geomagnetic Storm Monitoring"]
  metrics := some
    { kpIndex := curKp
      xrayFlux := xrayFlux
      dstIndex := dstIndex
      solarWindSpeed := solarWind.getD 2 (.num 0)
      flareCount := flareCount }

/-- The error status document of lines 259-264. -/
def errorStatus (c : Clock) (msg : String) : StatusDoc where
  lastUpdate := c.iso
  status := "error"
  message := msg
  timestamp := c.ms
  dataSources := none
  metrics := none

/-- The noaa-data snapshot document of lines 78-87. -/
structure NoaaDoc where
  kpIndex : List (List JsVal)
  solarWind : List JsVal
  solarFlares : List JsVal
  updated : String
  source : String
deriving DecidableEq, Repr

/-- The dst-data snapshot document of lines 237-245. -/
structure DstDoc where
  current : ℚ
  updated : String
  stormLevel : String
  description : String
deriving DecidableEq, Repr

/-- One written snapshot document. -/
inductive Doc where
  | noaa (d : NoaaDoc)
  | aurora (d : AuroraDoc)
  | news (items : List NewsItem)
  | status (d : StatusDoc)
  | xray (d : XrayDoc)
  | dst (d : DstDoc)
deriving DecidableEq, Repr

/-- The fetch outcomes of one run, one per upstream request the script
can issue. -/
structure FetchOutcomes where
  kp : Except Unit (List KpRaw)
  wind : Except Unit (List WindRaw)
  flarePrimary : Except Unit (List JsVal)
  flareBackup : Except Unit (List JsVal)
  xray : Except Unit (List XrayRaw)
  dst : Except Unit (List (List JsVal))
  news : Except Unit (List NewsItem)

/-- The ordered sequence of snapshot writes the try-body of `fetchData`
performs (lines 14-253): noaa-data, aurora, news, update-status
(success), xray-data, dst-data. -/
def pipelineWrites (o : FetchOutcomes) (c : Clock) : List (String × Doc) :=
  let kpIndex := kpAdapter o.kp
  let solarWind := windAdapter o.wind c.iso
  let solarFlares := flareAdapter o.flarePrimary o.flareBackup
  let curKp := currentKpJs kpIndex
  let xrayFlux := xrayStep o.xray
  let dstIndex := dstStep o.dst
  let newsItems := newsStep o.news c.iso
  [("noaa-data.json", Doc.noaa ⟨kpIndex, solarWind, solarFlares, c.iso, "NOAA SWPC"⟩),
   ("aurora.json", Doc.aurora (buildAurora curKp c.iso)),
   ("news.json", Doc.news newsItems),
   ("update-status.json",
    Doc.status (successStatus c curKp xrayFlux dstIndex solarWind solarFlares.length)),
   ("xray-data.json", Doc.xray (buildXrayDoc xrayFlux c.iso)),
   ("dst-data.json", Doc.dst ⟨dstIndex, c.iso, getDstStormLevel dstIndex, getDstDescription dstIndex⟩)]

/-- A run with an injected run-fatal defect: a defect with message `m`
striking after `k` completed writes aborts the body (those writes
persist) and the catch block of lines 255-272 appends the error status
document; `none` is the defect-free run. -/
def runPipelineWithFault (o : FetchOutcomes) (c : Clock) :
    Option (ℕ × String) → List (String × Doc)
  | none => pipelineWrites o c
  | some (k, m) =>
      (pipelineWrites o c).take k ++ [("update-status.json", Doc.status (errorStatus c m))]

/-- The base activity value of part_001 lines 330-351, before jitter. -/
def meteorBaseActivity (month day : ℕ) : ℚ :=
  if month = 1 ∧ 1 ≤ day ∧ day ≤ 5 then 8.5
  else if month = 8 ∧ 10 ≤ day ∧ day ≤ 15 then 9.0
  else if month = 12 ∧ 10 ≤ day ∧ day ≤ 16 then 9.5
  else if month = 10 ∧ 20 ≤ day ∧ day ≤ 23 then 6.5
  else 3.5

/-- The activity label assigned alongside the base value. -/
def meteorActivityLabel (month day : ℕ) : String :=
  if month = 1 ∧ 1 ≤ day ∧ day ≤ 5 then "High"
  else if month = 8 ∧ 10 ≤ day ∧ day ≤ 15 then "Very High"
  else if month = 12 ∧ 10 ≤ day ∧ day ≤ 16 then "Very High"
  else if month = 10 ∧ 20 ≤ day ∧ day ≤ 23 then "Moderate"
  else "Low"

/-- The description assigned alongside the base value. -/
def meteorBaseDescription (month day : ℕ) : String :=
  if month = 1 ∧ 1 ≤ day ∧ day ≤ 5 then "Quadrantids meteor shower active! Peak around Jan 3-4."
  else if month = 8 ∧ 10 ≤ day ∧ day ≤ 15 then "Perseids meteor shower active! Peak around Aug 12-13."
  else if month = 12 ∧ 10 ≤ day ∧ day ≤ 16 then "Geminids meteor shower active! Peak around Dec 13-14."
  else if month = 10 ∧ 20 ≤ day ∧ day ≤ 23 then "Orionids meteor shower active."
  else "Typical background meteor activity"

/-- `Math.max(0, Math.min(10, x))` of part_001 line 355. -/
def jsClamp0to10 (x : ℚ) : ℚ := max 0 (min 10 x)

/-- The reported current activity (part_001 lines 353-355 and 410):
the base value plus the jitter `(rand - 0.5) * 2` for the run's
`Math.random()` draw, clamped to `[0, 10]`, kept to one decimal. -/
def meteorCurrent (month day : ℕ) (rand : ℚ) : ℚ :=
  round1 (jsClamp0to10 (meteorBaseActivity month day + (rand - 1/2) * 2))

/-- One entry of the active-showers list (part_001 lines 358-382). -/
structure ActiveShower where
  name : String
  zhr : ℕ
  peak : String
  description : String
deriving DecidableEq, Repr

/-- The active-showers list of part_001 lines 358-382, pushed in source
order: Geminids, Quadrantids, Perseids. -/
def meteorActiveShowers (month day : ℕ) : List ActiveShower :=
  (if month = 12 ∧ 4 ≤ day ∧ day ≤ 17 then
    [⟨"Geminids", 150, "Active Now (Peak: Dec 13-14)",
      "One of the best showers of the year, producing up to 150 meteors/hour at peak."⟩]
   else []) ++
  (if month = 1 ∧ 1 ≤ day ∧ day ≤ 10 then
    [⟨"Quadrantids", 120, "Active Now (Peak: Jan 3-4)",
      "First major shower of the year, known for bright fireballs."⟩]
   else []) ++
  (if month = 8 ∧ 9 ≤ day ∧ day ≤ 14 then
    [⟨"Perseids", 100, "Active Now (Peak: Aug 12-13)",
      "Popular summer meteor shower with fast, bright meteors."⟩]
   else [])

/-- The next-major-shower record (part_001 lines 385-407). -/
structure NextShower where
  name : String
  date : String
  zhr : ℕ
  description : String
deriving DecidableEq, Repr

/-- The next-major-shower selection of part_001 lines 385-407. -/
def meteorNextMajor (month : ℕ) : NextShower :=
  if 1 ≤ month ∧ month ≤ 3 then
    ⟨"Lyrids", "April 21-22, 2024", 18,
     "Spring meteor shower known for occasional bright fireballs."⟩
  else if 4 ≤ month ∧ month ≤ 7 then
    ⟨"Perseids", "August 12-13, 2024", 100,
     "Popular summer meteor shower with fast, bright meteors."⟩
  else
    ⟨"Geminids", "December 13-14, 2024", 150,
     "One of the best showers of the year, producing up to 150 meteors/hour at peak."⟩

/-- One row of the fixed shower calendar (part_001 lines 415-458). -/
structure Shower where
  name : String
  peak : String
  zhr : ℕ
  active : Bool
  rating : ℕ
deriving DecidableEq, Repr

/-- The fixed six-shower calendar of part_001 lines 415-458, with the
per-date active flags. -/
def meteorShowersTable (month day : ℕ) : List Shower :=
  [⟨"Quadrantids", "Jan 3-4", 120, decide (month = 1 ∧ 1 ≤ day ∧ day ≤ 10), 8⟩,
   ⟨"Lyrids", "Apr 21-22", 18, decide (month = 4 ∧ 16 ≤ day ∧ day ≤ 25), 4⟩,
   ⟨"Perseids", "Aug 12-13", 100, decide (month = 8 ∧ 9 ≤ day ∧ day ≤ 14), 7⟩,
   ⟨"Orionids", "Oct 21-22", 20, decide (month = 10 ∧ 16 ≤ day ∧ day ≤ 26), 5⟩,
   ⟨"Leonids", "Nov 17-18", 15, decide (month = 11 ∧ 14 ≤ day ∧ day ≤ 21), 3⟩,
   ⟨"Geminids", "Dec 13-14", 150, decide (month = 12 ∧ 4 ≤ day ∧ day ≤ 17), 9⟩]

/-- The meteor snapshot document of part_001 lines 409-461. -/
structure MeteorDoc where
  current : ℚ
  max : ℕ
  activity : String
  description : String
  updated : String
  showers : List Shower
  activeShowers : List ActiveShower
  nextMajorShower : NextShower
deriving DecidableEq, Repr

/-- The meteor-document assembler of part_001 `updateMeteorData`
(lines 320-466), with the run date, clock and the run's single
`Math.random()` draw made explicit. -/
def meteorDoc (month day : ℕ) (iso : String) (rand : ℚ) : MeteorDoc where
  current := meteorCurrent month day rand
  max := 10
  activity := meteorActivityLabel month day
  description := meteorBaseDescription month day
  updated := iso
  showers := meteorShowersTable month day
  activeShowers := meteorActiveShowers month day
  nextMajorShower := meteorNextMajor month

/-- C2: for every finite flux value f, the X-ray classification assigns
letter X when f ≥ 1e-6, M when f ≥ 1e-7, C when f ≥ 1e-8, B when
f ≥ 1e-9 and A otherwise — so each exact boundary value classifies into
the higher class — and the reported magnitude is f divided by the
matched threshold, rendered to one decimal place. -/
theorem xray_classification (f : ℚ) :
    (1/1000000 ≤ f → xrayFluxString f = "X" ++ toFixed1Str (f / (1/1000000))) ∧
    (1/10000000 ≤ f ∧ f < 1/1000000 →
      xrayFluxString f = "M" ++ toFixed1Str (f / (1/10000000))) ∧
    (1/100000000 ≤ f ∧ f < 1/10000000 →
      xrayFluxString f = "C" ++ toFixed1Str (f / (1/100000000))) ∧
    (1/1000000000 ≤ f ∧ f < 1/100000000 →
      xrayFluxString f = "B" ++ toFixed1Str (f / (1/1000000000))) ∧
    (f < 1/1000000000 → xrayFluxString f = "A" ++ toFixed1Str (f / (1/10000000000))) := by
  unfold xrayFluxString
  refine ⟨fun h => ?_, fun h => ?_, fun h => ?_, fun h => ?_, fun h => ?_⟩
  · rw [if_pos h]
  · rw [if_neg (not_le.mpr h.2), if_pos h.1]
  · rw [if_neg (not_le.mpr (by linarith [h.2])), if_neg (not_le.mpr h.2), if_pos h.1]
  · rw [if_neg (not_le.mpr (by linarith [h.2])), if_neg (not_le.mpr (by linarith [h.2])),
      if_neg (not_le.mpr h.2), if_pos h.1]
  · rw [if_neg (not_le.mpr (by linarith)), if_neg (not_le.mpr (by linarith)),
      if_neg (not_le.mpr (by linarith)), if_neg (not_le.mpr h)]

/-- Witness for `xray_classification`: the four boundary fluxes land in
the higher class, and zero flux is A-class. -/
theorem xray_classification_witness :
    xrayFluxString (1/1000000) = "X" ++ toFixed1Str ((1/1000000 : ℚ) / (1/1000000)) ∧
    xrayFluxString (1/10000000) = "M" ++ toFixed1Str ((1/10000000 : ℚ) / (1/10000000)) ∧
    xrayFluxString (1/100000000) = "C" ++ toFixed1Str ((1/100000000 : ℚ) / (1/100000000)) ∧
    xrayFluxString (1/1000000000) = "B" ++ toFixed1Str ((1/1000000000 : ℚ) / (1/1000000000)) ∧
    xrayFluxString 0 = "A" ++ toFixed1Str ((0 : ℚ) / (1/10000000000)) :=
  ⟨(xray_classification _).1 (by norm_num),
   (xray_classification _).2.1 ⟨by norm_num, by norm_num⟩,
   (xray_classification _).2.2.1 ⟨by norm_num, by norm_num⟩,
   (xray_classification _).2.2.2.1 ⟨by norm_num, by norm_num⟩,
   (xray_classification _).2.2.2.2 (by norm_num)⟩

/-- C3: for every dst value d, the storm level is Severe when d ≤ -100,
Strong when d ≤ -50, Moderate when d ≤ -30, Minor when d ≤ -20 and
Quiet otherwise, and the description is a fixed function of the level
alone. -/
theorem dst_storm_classification (d : ℚ) :
    (d ≤ -100 → getDstStormLevel d = "Severe") ∧
    (-100 < d ∧ d ≤ -50 → getDstStormLevel d = "Strong") ∧
    (-50 < d ∧ d ≤ -30 → getDstStormLevel d = "Moderate") ∧
    (-30 < d ∧ d ≤ -20 → getDstStormLevel d = "Minor") ∧
    (-20 < d → getDstStormLevel d = "Quiet") ∧
    getDstDescription d = dstLevelDescription (getDstStormLevel d) := by
  refine ⟨fun h => ?_, fun h => ?_, fun h => ?_, fun h => ?_, fun h => ?_, ?_⟩
  · unfold getDstStormLevel; rw [if_pos h]
  · unfold getDstStormLevel; rw [if_neg (not_le.mpr h.1), if_pos h.2]
  · unfold getDstStormLevel
    rw [if_neg (not_le.mpr (by linarith [h.1])), if_neg (not_le.mpr h.1), if_pos h.2]
  · unfold getDstStormLevel
    rw [if_neg (not_le.mpr (by linarith [h.1])), if_neg (not_le.mpr (by linarith [h.1])),
      if_neg (not_le.mpr h.1), if_pos h.2]
  · unfold getDstStormLevel
    rw [if_neg (not_le.mpr (by linarith)), if_neg (not_le.mpr (by linarith)),
      if_neg (not_le.mpr (by linarith)), if_neg (not_le.mpr h)]
  · unfold getDstStormLevel getDstDescription
    split_ifs <;> rfl

/-- Witness for `dst_storm_classification` at the boundary values the
spec singles out: dst -100 is Severe, -99 is Strong, -19 is Quiet
(plus one point of each remaining band). -/
theorem dst_storm_classification_witness :
    getDstStormLevel (-100) = "Severe" ∧
    getDstStormLevel (-99) = "Strong" ∧
    getDstStormLevel (-45) = "Moderate" ∧
    getDstStormLevel (-25) = "Minor" ∧
    getDstStormLevel (-19) = "Quiet" :=
  ⟨(dst_storm_classification _).1 (by norm_num),
   (dst_storm_classification _).2.1 ⟨by norm_num, by norm_num⟩,
   (dst_storm_classification _).2.2.1 ⟨by norm_num, by norm_num⟩,
   (dst_storm_classification _).2.2.2.1 ⟨by norm_num, by norm_num⟩,
   (dst_storm_classification _).2.2.2.2.1 (by norm_num)⟩

/-- C4: for every finite kp, the aurora level is HIGH when kp ≥ 6,
MODERATE when kp ≥ 4 and LOW otherwise, the probability is High exactly
when kp ≥ 5 (else Low), and the forecast string interpolates the
current kp, the level and the kp+0.5 three-hour projection. -/
theorem aurora_level_probability_forecast (kp : ℚ) (iso : String) :
    (6 ≤ kp → auroraLevelOf (JsVal.num kp) = "HIGH") ∧
    (4 ≤ kp ∧ kp < 6 → auroraLevelOf (JsVal.num kp) = "MODERATE") ∧
    (kp < 4 → auroraLevelOf (JsVal.num kp) = "LOW") ∧
    ((buildAurora (JsVal.num kp) iso).probability = "High" ↔ 5 ≤ kp) ∧
    ((buildAurora (JsVal.num kp) iso).probability = "Low" ↔ kp < 5) ∧
    (buildAurora (JsVal.num kp) iso).forecast =
      "Current Kp index is " ++ toFixed1Str kp ++ " (" ++ auroraLevelOf (JsVal.num kp)
        ++ "). " ++ auroraVisibility (JsVal.num kp) ++ " The auroral oval is "
        ++ (if 4 ≤ kp then "expanded" else "near normal")
        ++ " size. Next 3 hours forecast: Kp " ++ toFixed1Str (kp + 1/2) ++ "." := by
  refine ⟨fun h => ?_, fun h => ?_, fun h => ?_, ?_, ?_, ?_⟩
  · simp only [auroraLevelOf, jsGe, decide_eq_true_eq]
    rw [if_pos h]
  · simp only [auroraLevelOf, jsGe, decide_eq_true_eq]
    rw [if_neg (not_le.mpr h.2), if_pos h.1]
  · simp only [auroraLevelOf, jsGe, decide_eq_true_eq]
    rw [if_neg (not_le.mpr (by linarith)), if_neg (not_le.mpr h)]
  · simp only [buildAurora, jsGe, decide_eq_true_eq]
    by_cases h5 : 5 ≤ kp <;> simp [h5]
  · simp only [buildAurora, jsGe, decide_eq_true_eq]
    by_cases h5 : 5 ≤ kp
    · simp [h5, not_lt.mpr h5]
    · simp [h5, not_le.mp h5]
  · simp only [buildAurora, jsToFixed1, jsAdd, jsGe, decide_eq_true_eq]

/-- Witness for `aurora_level_probability_forecast` at the three kp
values the spec singles out: 6 is HIGH, 4 is MODERATE, 3.9 is LOW. -/
theorem aurora_level_witness :
    auroraLevelOf (JsVal.num 6) = "HIGH" ∧
    auroraLevelOf (JsVal.num 4) = "MODERATE" ∧
    auroraLevelOf (JsVal.num (39/10)) = "LOW" :=
  ⟨(aurora_level_probability_forecast 6 "t").1 (by norm_num),
   (aurora_level_probability_forecast 4 "t").2.1 ⟨by norm_num, by norm_num⟩,
   (aurora_level_probability_forecast (39/10) "t").2.2.1 (by norm_num)⟩

/-- C1: when the Kp-index fetch throws or returns no entries, the run
still produces all six documents, the aurora document is built with the
default kp = 0, its level is LOW, its probability Low, and the run
status is still success. -/
theorem kp_failure_degrades_to_low (o : FetchOutcomes) (c : Clock)
    (h : o.kp = Except.error () ∨ o.kp = Except.ok []) :
    (pipelineWrites o c).length = 6 ∧
    (pipelineWrites o c)[1]? =
      some ("aurora.json", Doc.aurora (buildAurora (JsVal.num 0) c.iso)) ∧
    auroraLevelOf (JsVal.num 0) = "LOW" ∧
    (buildAurora (JsVal.num 0) c.iso).kpIndex = JsVal.num 0 ∧
    (buildAurora (JsVal.num 0) c.iso).probability = "Low" ∧
    ∃ st, (pipelineWrites o c)[3]? = some ("update-status.json", Doc.status st) ∧
      st.status = "success" := by
  have hk : kpAdapter o.kp = [] := by
    rcases h with h | h <;> rw [h] <;> rfl
  have hcur : currentKpJs (kpAdapter o.kp) = JsVal.num 0 := by rw [hk]; rfl
  refine ⟨rfl, ?_, by norm_num [auroraLevelOf, jsGe], rfl,
    by norm_num [buildAurora, jsGe], ?_⟩
  · show some ("aurora.json",
      Doc.aurora (buildAurora (currentKpJs (kpAdapter o.kp)) c.iso)) = _
    rw [hcur]
  · refine ⟨successStatus c (JsVal.num 0) (xrayStep o.xray) (dstStep o.dst)
      (windAdapter o.wind c.iso) (flareAdapter o.flarePrimary o.flareBackup).length, ?_, rfl⟩
    show some ("update-status.json",
      Doc.status (successStatus c (currentKpJs (kpAdapter o.kp)) (xrayStep o.xray)
        (dstStep o.dst) (windAdapter o.wind c.iso)
        (flareAdapter o.flarePrimary o.flareBackup).length)) = _
    rw [hcur]

/-- Witness for `kp_failure_degrades_to_low`: a run in which every
fetch fails still yields the six documents with a LOW aurora. -/
theorem kp_failure_degrades_to_low_witness :
    (pipelineWrites
      ⟨Except.error (), Except.error (), Except.error (), Except.error (),
       Except.error (), Except.error (), Except.error ()⟩ ⟨"t", 0⟩).length = 6 ∧
    (pipelineWrites
      ⟨Except.error (), Except.error (), Except.error (), Except.error (),
       Except.error (), Except.error (), Except.error ()⟩ ⟨"t", 0⟩)[1]? =
      some ("aurora.json", Doc.aurora (buildAurora (JsVal.num 0) "t")) ∧
    auroraLevelOf (JsVal.num 0) = "LOW" ∧
    (buildAurora (JsVal.num 0) "t").kpIndex = JsVal.num 0 ∧
    (buildAurora (JsVal.num 0) "t").probability = "Low" ∧
    ∃ st, (pipelineWrites
      ⟨Except.error (), Except.error (), Except.error (), Except.error (),
       Except.error (), Except.error (), Except.error ()⟩ ⟨"t", 0⟩)[3]? =
      some ("update-status.json", Doc.status st) ∧ st.status = "success" :=
  kp_failure_degrades_to_low _ _ (Or.inl rfl)

/-- C7: the defect-free run writes an update-status document with
status success and the fixed success message; a run-fatal defect with
message m, striking after any number k of completed writes, ends the
run with an update-status document carrying status error and exactly
m, while the k documents already written remain exactly the first k
writes of the defect-free run (no rollback). -/
theorem run_status_success_error (o : FetchOutcomes) (c : Clock) :
    (runPipelineWithFault o c none = pipelineWrites o c ∧
      ∃ st, (pipelineWrites o c)[3]? = some ("update-status.json", Doc.status st) ∧
        st.status = "success" ∧
        st.message = "All space weather data updated successfully") ∧
    ∀ k m,
      (runPipelineWithFault o c (some (k, m))).getLast? =
        some ("update-status.json", Doc.status (errorStatus c m)) ∧
      (errorStatus c m).status = "error" ∧
      (errorStatus c m).message = m ∧
      (runPipelineWithFault o c (some (k, m))).dropLast = (pipelineWrites o c).take k ∧
      ∃ rest, pipelineWrites o c =
        (runPipelineWithFault o c (some (k, m))).dropLast ++ rest := by
  refine ⟨⟨rfl, ⟨_, rfl, rfl, rfl⟩⟩, fun k m => ⟨?_, rfl, rfl, ?_, ?_⟩⟩
  · exact List.getLast?_concat _
  · exact List.dropLast_concat ..
  · refine ⟨(pipelineWrites o c).drop k, ?_⟩
    rw [runPipelineWithFault, List.dropLast_concat, List.take_append_drop]

/-- C5 (amended): the Kp adapter keeps the last 24 normalized entries
(a suffix of length min(n, 24)); the main flare adapter keeps the last
10 entries (a suffix of length min(n, 10)); the wind, Dst and X-ray
steps depend only on the single most recent entry; the part_002
variant's flare adapter instead keeps the FIRST ten entries of its
feed. -/
theorem windowing_policy :
    (∀ xs : List KpRaw, (kpAdapter (Except.ok xs)).length = min xs.length 24 ∧
      ∃ pre, xs.map normalizeKpItem = pre ++ kpAdapter (Except.ok xs)) ∧
    (∀ (xs : List JsVal) (b : Except Unit (List JsVal)), (lastN 10 xs).length ≠ 0 →
      flareAdapter (Except.ok xs) b = lastN 10 xs) ∧
    (∀ xs : List JsVal, (lastN 10 xs).length = min xs.length 10 ∧
      ∃ pre, xs = pre ++ lastN 10 xs) ∧
    (∀ (xs : List WindRaw) (w : WindRaw) (iso : String),
      windAdapter (Except.ok (xs ++ [w])) iso = windAdapter (Except.ok [w]) iso) ∧
    (∀ (xs : List (List JsVal)) (row : List JsVal),
      dstStep (Except.ok (xs ++ [row])) = dstStep (Except.ok [row])) ∧
    (∀ (xs : List XrayRaw) (x : XrayRaw),
      xrayStep (Except.ok (xs ++ [x])) = xrayStep (Except.ok [x])) ∧
    (∀ xs : List JsVal, part002FlareAdapter (Except.ok xs) = xs.take 10 ∧
      ∃ post, xs = xs.take 10 ++ post) := by
  refine ⟨fun xs => ⟨?_, ?_⟩, fun xs b h => ?_, fun xs => ⟨?_, ?_⟩,
    fun xs w iso => ?_, fun xs row => ?_, fun xs x => ?_, fun xs => ⟨rfl, ?_⟩⟩
  · simp only [kpAdapter, lastN, List.length_drop, List.length_map]
    omega
  · refine ⟨(xs.map normalizeKpItem).take ((xs.map normalizeKpItem).length - 24), ?_⟩
    show xs.map normalizeKpItem =
      _ ++ (xs.map normalizeKpItem).drop ((xs.map normalizeKpItem).length - 24)
    exact (List.take_append_drop _ _).symm
  · simp only [flareAdapter]
    rw [if_neg h]
  · simp only [lastN, List.length_drop]
    omega
  · exact ⟨xs.take (xs.length - 10), (List.take_append_drop _ _).symm⟩
  · simp [windAdapter, List.getLast?_concat]
  · simp [dstStep, List.getLast?_concat]
  · simp [xrayStep, List.getLast?_concat]
  · exact ⟨xs.drop 10, (List.take_append_drop _ _).symm⟩

/-- Witness for `windowing_policy`: a one-element flare feed is kept
as-is because the windowed primary result is nonempty. -/
theorem windowing_policy_witness :
    (lastN 10 [JsVal.str "flare1"]).length ≠ 0 ∧
    flareAdapter (Except.ok [JsVal.str "flare1"]) (Except.error ()) =
      lastN 10 [JsVal.str "flare1"] :=
  ⟨by decide, windowing_policy.2.1 [JsVal.str "flare1"] (Except.error ()) (by decide)⟩

/-- Counterexample for C5 as stated: the part_002 flare adapter applied
to an eleven-element feed keeps the first ten entries, which are not
the last ten entries of its input. -/
theorem part002_flare_first_ten_counterexample :
    part002FlareAdapter (Except.ok
      [JsVal.str "f0", JsVal.str "f1", JsVal.str "f2", JsVal.str "f3", JsVal.str "f4",
       JsVal.str "f5", JsVal.str "f6", JsVal.str "f7", JsVal.str "f8", JsVal.str "f9",
       JsVal.str "f10"]) ≠
    lastN 10
      [JsVal.str "f0", JsVal.str "f1", JsVal.str "f2", JsVal.str "f3", JsVal.str "f4",
       JsVal.str "f5", JsVal.str "f6", JsVal.str "f7", JsVal.str "f8", JsVal.str "f9",
       JsVal.str "f10"] := by decide

/-- C6 (amended): the backup flare endpoint is consulted exactly when
the primary flare fetch succeeds with an empty windowed result; when
the primary fetch throws, no fallback is tried and the adapter yields
the empty list; every other feed step maps a fetch error straight to
its default value with no second request. -/
theorem flare_fallback_policy (p b : Except Unit (List JsVal)) (iso : String) :
    (flareBackupTried p = true ↔ ∃ xs, p = Except.ok xs ∧ lastN 10 xs = []) ∧
    flareBackupTried (Except.error ()) = false ∧
    flareAdapter (Except.error ()) b = [] ∧
    kpAdapter (Except.error ()) = [] ∧
    windAdapter (Except.error ()) iso = [] ∧
    dstStep (Except.error ()) = 0 ∧
    xrayStep (Except.error ()) = "A0.0" ∧
    newsStep (Except.error ()) iso = [placeholderNews iso] := by
  refine ⟨?_, rfl, rfl, rfl, rfl, rfl, rfl, rfl⟩
  cases p with
  | error e => simp [flareBackupTried]
  | ok xs => simp [flareBackupTried, List.length_eq_zero]

/-- Counterexample for C6 as stated: a failing primary flare fetch does
not trigger the fallback — even with a nonempty backup feed available,
no backup request is issued and the adapter result stays empty. -/
theorem flare_no_fallback_on_error_counterexample :
    flareBackupTried (Except.error ()) = false ∧
    flareAdapter (Except.error ()) (Except.ok [JsVal.str "flare1"]) = [] :=
  ⟨rfl, rfl⟩

/-- C8 (amended): numeric fields built through the object-shaped Kp
branch and the wind adapter are always finite numbers obtained by the
`parseFloat(x) || 0` coercion, which maps unparsable strings, missing
fields and NaN to the default 0; array-shaped Kp items, however, pass
through unchanged (see the counterexample). -/
theorem numeric_coercion_policy (t ts kp est : JsVal) (w : WindRaw) (iso s : String) :
    (normalizeKpItem (KpRaw.obj t ts kp est))[1]? = some (JsVal.num (parseFloatOr0 kp)) ∧
    (normalizeKpItem (KpRaw.obj t ts kp est))[2]? = some (JsVal.num (parseFloatOr0 est)) ∧
    (parseDec s = none → parseFloatOr0 (JsVal.str s) = 0) ∧
    parseFloatOr0 JsVal.undef = 0 ∧
    parseFloatOr0 JsVal.nan = 0 ∧
    (windAdapter (Except.ok [w]) iso)[1]? = some (JsVal.num (parseFloatOr0 w.density)) ∧
    (windAdapter (Except.ok [w]) iso)[2]? = some (JsVal.num (parseFloatOr0 w.speed)) ∧
    (windAdapter (Except.ok [w]) iso)[3]? = some (JsVal.num (parseFloatOr0 w.temperature)) := by
  refine ⟨rfl, rfl, fun h => ?_, rfl, rfl, rfl, rfl, rfl⟩
  simp [parseFloatOr0, jsParseFloat, h]

/-- Witness for `numeric_coercion_policy`: the unparsable string
banana is coerced to the default 0. -/
theorem numeric_coercion_policy_witness :
    parseDec "banana" = none ∧ parseFloatOr0 (JsVal.str "banana") = 0 :=
  ⟨rfl, (numeric_coercion_policy JsVal.undef JsVal.undef JsVal.undef JsVal.undef
    ⟨JsVal.undef, JsVal.undef, JsVal.undef, JsVal.undef⟩ "t" "banana").2.2.1 rfl⟩

/-- Counterexample for C8 as stated: an array-shaped Kp item whose kp
slot is the unparsable string banana passes through the adapter
unchanged, so the normalized kpIndex retains a non-numeric placeholder
instead of the coerced default 0. -/
theorem kp_array_passthrough_counterexample :
    kpAdapter (Except.ok
      [KpRaw.arr [JsVal.str "2024-01-01T00:00:00Z", JsVal.str "banana",
        JsVal.str "0", JsVal.str "0"]]) =
      [[JsVal.str "2024-01-01T00:00:00Z", JsVal.str "banana",
        JsVal.str "0", JsVal.str "0"]] ∧
    isNumericJs (JsVal.str "banana") = false ∧
    parseDec "banana" = none :=
  ⟨rfl, rfl, rfl⟩

/-- C9 (amended): with the date and clock fixed, two assembler runs
agree on every field of the meteor document except `current`, which is
the base calendar activity perturbed by the run's random jitter; all
other documents take no random input at all, so fixing the jitter draw
makes the whole assembly deterministic. -/
theorem meteor_determinism_modulo_jitter (month day : ℕ) (iso : String) (r1 r2 : ℚ) :
    (meteorDoc month day iso r1).max = (meteorDoc month day iso r2).max ∧
    (meteorDoc month day iso r1).activity = (meteorDoc month day iso r2).activity ∧
    (meteorDoc month day iso r1).description = (meteorDoc month day iso r2).description ∧
    (meteorDoc month day iso r1).updated = (meteorDoc month day iso r2).updated ∧
    (meteorDoc month day iso r1).showers = (meteorDoc month day iso r2).showers ∧
    (meteorDoc month day iso r1).activeShowers = (meteorDoc month day iso r2).activeShowers ∧
    (meteorDoc month day iso r1).nextMajorShower =
      (meteorDoc month day iso r2).nextMajorShower ∧
    (meteorDoc month day iso r1).current = meteorCurrent month day r1 :=
  ⟨rfl, rfl, rfl, rfl, rfl, rfl, rfl, rfl⟩

/-- Counterexample for C9 as stated: two meteor-assembler runs on the
same date with the same fixed clock but different `Math.random()` draws
produce documents that differ in `current` while their `updated`
timestamps are identical — so the documents differ in more than the
`updated` field. -/
theorem meteor_jitter_counterexample :
    (meteorDoc 5 1 "2024-05-01T00:00:00Z" 0).current ≠
      (meteorDoc 5 1 "2024-05-01T00:00:00Z" (1/2)).current ∧
    (meteorDoc 5 1 "2024-05-01T00:00:00Z" 0).updated =
      (meteorDoc 5 1 "2024-05-01T00:00:00Z" (1/2)).updated := by
  refine ⟨?_, rfl⟩
  show meteorCurrent 5 1 0 ≠ meteorCurrent 5 1 (1/2)
  norm_num [meteorCurrent, jsClamp0to10, meteorBaseActivity, round1, round_eq]

/-- C10: the news list the pipeline writes is never empty — when no
item was fetched and parsed, the fixed Dashboard placeholder pointing
at the repository is inserted, so the written array has length at
least one. -/
theorem news_placeholder_nonempty (o : FetchOutcomes) (c : Clock)
    (r : Except Unit (List NewsItem)) (iso : String) :
    1 ≤ (newsStep r iso).length ∧
    (r = Except.error () ∨ r = Except.ok [] → newsStep r iso = [placeholderNews iso]) ∧
    (placeholderNews iso).source = "Dashboard" ∧
    (placeholderNews iso).link = "https://github.com/NAGOHUSA/ONSLIVE" ∧
    ∃ items, (pipelineWrites o c)[2]? = some ("news.json", Doc.news items) ∧
      1 ≤ items.length := by
  have h1 : ∀ s : Except Unit (List NewsItem), ∀ t : String, 1 ≤ (newsStep s t).length := by
    intro s t
    cases s with
    | error e => exact le_refl 1
    | ok l =>
      unfold newsStep
      by_cases hl : l.length = 0
      · simp [hl]
      · simp only [if_neg hl]
        omega
  refine ⟨h1 r iso, fun h => ?_, rfl, rfl,
    ⟨newsStep o.news c.iso, rfl, h1 o.news c.iso⟩⟩
  rcases h with h | h <;> rw [h] <;> rfl

/-- Witness for `news_placeholder_nonempty`: a run whose news fetch
succeeded but parsed zero items writes exactly the placeholder. -/
theorem news_placeholder_nonempty_witness :
    1 ≤ (newsStep (Except.ok []) "t").length ∧
    newsStep (Except.ok []) "t" = [placeholderNews "t"] :=
  ⟨(news_placeholder_nonempty
      ⟨Except.error (), Except.error (), Except.error (), Except.error (),
       Except.error (), Except.error (), Except.error ()⟩ ⟨"t", 0⟩
      (Except.ok []) "t").1,
   (news_placeholder_nonempty
      ⟨Except.error (), Except.error (), Except.error (), Except.error (),
       Except.error (), Except.error (), Except.error ()⟩ ⟨"t", 0⟩
      (Except.ok []) "t").2.1 (Or.inr rfl)⟩

end Onslive
